import Mathlib

/-
Verification of the Apple Unified Logging and Activity Tracing decoders
(dtformats unified_logging module).  The module itself is not part of the
source snapshot; only its unit tests (tests/unified_logging.py) are.  The
definitions below are therefore modelled from the specification, with byte
layouts and concrete expected values anchored in the assertions of the
unit tests, which are part of the source.
-/

/-- A byte stream: a list of byte values, each intended to be below 256. -/
abbrev Bytes := List Nat

/-- Modelled from the spec: little-endian integer decoding shared by every
binary reader of the missing dtformats unified_logging module.  Reads n
bytes at the given offset, least significant byte first; fails when the
data is too short. -/
def readLE (data : Bytes) (offset : Nat) : Nat → Option Nat
  | 0 => some 0
  | m + 1 =>
      match data.get? offset, readLE data (offset + 1) m with
      | some b, some rest => some (b + 256 * rest)
      | _, _ => none

/-- Modelled from the spec: TraceV3File.CalculateFormatFormatStringLocation
of the missing dtformats unified_logging module.  Branch 3 of the spec
(both supplemental flags set) keys on a non-zero large_shared_cache_data,
branch 2 (only the large-offset field set and non-zero) on a non-zero
large_offset_data, branch 1 returns the raw field unchanged; the flags
word itself does not enter the computation (spec section 9 open question:
the branch conditions are validated against the literal cases of section
8 rather than against assumed flag-bit names). -/
def CalculateFormatFormatStringLocation (flags format_string_location
    large_offset_data large_shared_cache_data : Nat) : Nat :=
  if large_shared_cache_data ≠ 0 then
    format_string_location ||| (large_shared_cache_data <<< 31)
  else if large_offset_data ≠ 0 then
    ((large_offset_data >>> 1) <<< 32) ||| (format_string_location ||| 0x80000000)
  else
    format_string_location

/-- Modelled from the spec: the file-type character of the file-mode
decoder, selected by the type nibble of the 16-bit mode value. -/
def fileTypeCharacter (mode : Nat) : Char :=
  let t := mode &&& 0xf000
  if t = 0x1000 then 'p'
  else if t = 0x2000 then 'c'
  else if t = 0x4000 then 'd'
  else if t = 0x6000 then 'b'
  else if t = 0xa000 then 'l'
  else if t = 0xc000 then 's'
  else '-'

/-- Modelled from the spec: one permission character of the file-mode
decoder, the given character when the bit is set and a dash otherwise. -/
def permissionCharacter (mode bit : Nat) (c : Char) : Char :=
  if mode &&& bit ≠ 0 then c else '-'

/-- Modelled from the spec: FileModeFormatStringDecoder.FormatValue of the
missing dtformats unified_logging module.  Renders a 16-bit mode value as
a 10-character Unix-style permission string: a file-type character
followed by rwx triplets for owner, group and other, with a dash for
every unset bit. -/
def FileModeFormatValue (mode : Nat) : String :=
  String.mk [fileTypeCharacter mode,
    permissionCharacter mode 0o400 'r',
    permissionCharacter mode 0o200 'w',
    permissionCharacter mode 0o100 'x',
    permissionCharacter mode 0o40 'r',
    permissionCharacter mode 0o20 'w',
    permissionCharacter mode 0o10 'x',
    permissionCharacter mode 0o4 'r',
    permissionCharacter mode 0o2 'w',
    permissionCharacter mode 0o1 'x']

/-- Modelled from the spec: the operating-system error description table
consulted by ErrorFormatStringDecoder.FormatValue of the missing
dtformats unified_logging module (the module delegates to the platform
errno description). -/
def osErrorDescription (v : Int) : String :=
  if v = 1 then "Operation not permitted"
  else if v = 2 then "No such file or directory"
  else if v = 3 then "No such process"
  else if v = 4 then "Interrupted system call"
  else if v = 5 then "Input/output error"
  else if v = 9 then "Bad file descriptor"
  else if v = 13 then "Permission denied"
  else "Unknown error"

/-- Modelled from the spec: ErrorFormatStringDecoder.FormatValue of the
missing dtformats unified_logging module.  Maps a signed integer
errno-like value to a bracketed string holding the value and the
operating-system error description. -/
def ErrorFormatValue (v : Int) : String :=
  "[" ++ Int.repr v ++ ": " ++ osErrorDescription v ++ "]"

/-- A value decoder produced by the format-string rewriter: a privacy tag
(for example public or private) and a value class (signed, unsigned, or
none for plain strings), both optional, matching the pairs asserted by
the unit tests. -/
abbrev FormatDecoder := Option String × Option String

/-- Modelled from the spec: the privacy block parser of the format-string
rewriter.  Scans the characters of a brace-delimited block up to the
closing brace, returning the block content and the remaining input. -/
def scanPrivacyBlock : List Char → String → Option (String × List Char)
  | [], _ => none
  | c :: rest, acc =>
      if c = '\x7d' then some (acc, rest)
      else scanPrivacyBlock rest (acc.push c)

/-- Modelled from the spec: the optional privacy block directly after a
percent character; when the next character opens a brace-delimited block
its content is captured as the privacy tag of the conversion. -/
def parsePrivacyBlock : List Char → Option String × List Char
  | '\x7b' :: rest =>
      match scanPrivacyBlock rest "" with
      | some (tag, rest2) => (some tag, rest2)
      | none => (none, '\x7b' :: rest)
  | cs => (none, cs)

/-- Modelled from the spec: a flag, width or precision character of a
conversion, copied verbatim into the output placeholder. -/
def isSpecChar (c : Char) : Bool :=
  c.isDigit || c = '.' || c = '-' || c = '+' || c = '#' || c = ' '

/-- Modelled from the spec: collects the flag, width and precision
characters of a conversion, returning them with the remaining input. -/
def takeSpecChars : List Char → String × List Char
  | [] => ("", [])
  | c :: rest =>
      if isSpecChar c then
        let (s, r) := takeSpecChars rest
        ((String.singleton c) ++ s, r)
      else ("", c :: rest)

/-- Modelled from the spec: a length modifier character (l, h, j, z, t,
q), consumed and never copied into the output template. -/
def isLengthModifier (c : Char) : Bool :=
  c = 'l' || c = 'h' || c = 'j' || c = 'z' || c = 't' || c = 'q'

/-- Modelled from the spec: drops the length modifiers of a conversion. -/
def dropLengthModifiers : List Char → List Char
  | [] => []
  | c :: rest => if isLengthModifier c then dropLengthModifiers rest else c :: rest

/-- Modelled from the spec: maps a conversion character, together with the
captured privacy tag and verbatim flag-width-precision text, to the
output placeholder and the decoder entry: d and i to a signed decimal
placeholder, u and p to an unsigned decimal placeholder (p renders as
decimal, not hexadecimal), x and X to unsigned hexadecimal placeholders
preserving flags and width, s to a string placeholder with no numeric
class.  A character outside the specified set is copied through as
literal text with no decoder. -/
def convertConversion (priv : Option String) (width : String) (conv : Char) :
    String × Option FormatDecoder :=
  if conv = 'd' ∨ conv = 'i' then
    ("\x7b:" ++ width ++ "d\x7d", some (priv, some "signed"))
  else if conv = 'u' ∨ conv = 'p' then
    ("\x7b:" ++ width ++ "d\x7d", some (priv, some "unsigned"))
  else if conv = 'x' then
    ("\x7b:" ++ width ++ "x\x7d", some (priv, some "unsigned"))
  else if conv = 'X' then
    ("\x7b:" ++ width ++ "X\x7d", some (priv, some "unsigned"))
  else if conv = 's' then
    ("\x7b:" ++ width ++ "s\x7d", some (priv, none))
  else (String.singleton conv, none)

/-- Modelled from the spec: the fuel-indexed scanning loop of the
format-string rewriter.  Every iteration consumes at least one input
character, so fuel equal to the input length suffices; a doubled percent
emits a literal percent, any other percent starts a conversion and every
other character is literal text. -/
def rewriteLoop : Nat → List Char → String × List FormatDecoder
  | 0, _ => ("", [])
  | _, [] => ("", [])
  | fuel + 1, c :: rest =>
      if c = '%' then
        match rest with
        | '%' :: rest2 =>
            let (t, ds) := rewriteLoop fuel rest2
            ("%" ++ t, ds)
        | _ =>
            let (priv, rest2) := parsePrivacyBlock rest
            let (width, rest3) := takeSpecChars rest2
            let rest4 := dropLengthModifiers rest3
            match rest4 with
            | [] => ("%", [])
            | conv :: rest5 =>
                let (placeholder, dec) := convertConversion priv width conv
                let (t, ds) := rewriteLoop fuel rest5
                match dec with
                | some d => (placeholder ++ t, d :: ds)
                | none => (placeholder ++ t, ds)
      else
        let (t, ds) := rewriteLoop fuel rest
        ((String.singleton c) ++ t, ds)

/-- Modelled from the spec: TraceV3File.RewriteFormatString of the missing
dtformats unified_logging module.  An absent format string yields an
empty template and no decoders; otherwise the raw string is scanned left
to right. -/
def RewriteFormatString : Option String → String × List FormatDecoder
  | none => ("", [])
  | some s => rewriteLoop s.data.length s.data

/-- Modelled from the spec: lookup in the format-string-rewrite cache,
keyed by raw string content. -/
def lookupCache (cache : List (String × (String × List FormatDecoder)))
    (key : String) : Option (String × List FormatDecoder) :=
  match cache with
  | [] => none
  | (k, v) :: rest => if k = key then some v else lookupCache rest key

/-- Modelled from the spec: the cached rewrite of a raw format string; a
hit returns the published entry and leaves the cache unchanged, a miss
performs the cold rewrite and publishes it (insert-once-if-absent). -/
def RewriteFormatStringCached
    (cache : List (String × (String × List FormatDecoder))) (raw : String) :
    (String × List FormatDecoder) × List (String × (String × List FormatDecoder)) :=
  match lookupCache cache raw with
  | some v => (v, cache)
  | none =>
      let v := RewriteFormatString (some raw)
      (v, (raw, v) :: cache)

/-- Modelled from the spec: a well-formed cache, in which every published
entry is the cold rewrite of its key. -/
def CacheWF (cache : List (String × (String × List FormatDecoder))) : Prop :=
  ∀ kv ∈ cache, kv.2 = RewriteFormatString (some kv.1)

/-- Modelled from the spec: the error kinds of the error handling design
(section 7). -/
inductive ParseError where
  | malformedHeader
  | truncatedData
  | unsupportedFlagsCombination
  | unresolvedReference
  deriving DecidableEq

/-- An Activity-type firehose tracepoint payload, with the fields asserted
by the unit test. -/
structure ActivityTracepoint where
  current_activity_identifier : Nat
  process_identifier : Nat
  other_activity_identifier : Nat
  new_activity_identifier : Nat
  load_address_lower : Nat
  deriving DecidableEq

/-- Modelled from the spec: the flags combinations the Activity tracepoint
decoder recognizes.  The spec leaves the exact set open (section 9); the
unit test exercises 0x0213 as recognized and 0xffff as unrecognized. -/
def recognizedActivityFlags : List Nat := [0x0213]

/-- Modelled from the spec: TraceV3File.ReadFirehoseTracepointActivityData
of the missing dtformats unified_logging module.  The flags value is
validated first; an unrecognized combination fails with the
unsupported-flags-combination error before any payload byte is read.  For
the recognized combination the payload is the current, other and new
activity identifiers, the process identifier and the lower load address,
little endian. -/
def ReadFirehoseTracepointActivityData (activity_type flags : Nat)
    (data : Bytes) (offset : Nat) :
    Except ParseError (ActivityTracepoint × Nat) :=
  if recognizedActivityFlags.contains flags then
    match readLE data offset 8, readLE data (offset + 8) 8,
        readLE data (offset + 16) 8, readLE data (offset + 24) 8,
        readLE data (offset + 32) 4 with
    | some cur, some pid, some other, some newa, some load =>
        Except.ok (⟨cur, pid, other, newa, load⟩, offset + 36)
    | _, _, _, _, _ => Except.error ParseError.truncatedData
  else Except.error ParseError.unsupportedFlagsCombination

/-- A Loss-type firehose tracepoint payload, with the fields asserted by
the unit test. -/
structure LossTracepoint where
  start_time : Nat
  end_time : Nat
  number_of_messages : Nat
  deriving DecidableEq

/-- Modelled from the spec: the flags combinations the Loss tracepoint
decoder recognizes; the unit test exercises 0x0000 as recognized and
0xffff as unrecognized. -/
def recognizedLossFlags : List Nat := [0x0000]

/-- Modelled from the spec and the unit test: the function
TraceV3File.ReadFirehoseTracepointLossData of the missing dtformats
unified_logging module.  The flags value is validated first, although the
spec lists only the three payload fields for Loss; an unrecognized
combination fails with a parse error before any payload byte is read.
The payload is start_time, end_time and number_of_messages, each 64-bit
little endian. -/
def ReadFirehoseTracepointLossData (flags : Nat) (data : Bytes)
    (offset : Nat) : Except ParseError (LossTracepoint × Nat) :=
  if recognizedLossFlags.contains flags then
    match readLE data offset 8, readLE data (offset + 8) 8,
        readLE data (offset + 16) 8 with
    | some st, some et, some n => Except.ok (⟨st, et, n⟩, offset + 24)
    | _, _, _ => Except.error ParseError.truncatedData
  else Except.error ParseError.unsupportedFlagsCombination

/-- The Activity tracepoint byte fixture of the unit test. -/
def firehoseTracepointActivityData : Bytes :=
  [0xe0, 0x00, 0x00, 0x00, 0x00, 0x00, 0x00, 0x80, 0x3b, 0x00, 0x00, 0x00,
   0x00, 0x00, 0x00, 0x00, 0xe0, 0x00, 0x00, 0x00, 0x00, 0x00, 0x00, 0x80,
   0xe1, 0x00, 0x00, 0x00, 0x00, 0x00, 0x00, 0x80, 0x48, 0x7e, 0x04, 0x00]

/-- The Loss tracepoint byte fixture of the unit test. -/
def firehoseTracepointLossData : Bytes :=
  [0xce, 0x9a, 0x31, 0x07, 0x00, 0x00, 0x00, 0x00, 0x95, 0xaa, 0xef, 0x56,
   0x00, 0x00, 0x00, 0x00, 0x3f, 0x00, 0x00, 0x00, 0x00, 0x00, 0x00, 0x00]

/-- Modelled from the spec: the universal 16-byte chunk header: tag,
sub-tag and payload size. -/
structure ChunkHeader where
  chunk_tag : Nat
  chunk_sub_tag : Nat
  chunk_data_size : Nat
  deriving DecidableEq

/-- Modelled from the spec: TraceV3File.ReadChunkHeader of the missing
dtformats unified_logging module; tag and sub-tag are 32-bit and the data
size 64-bit, all little endian, and the data size excludes the header
itself. -/
def ReadChunkHeader (data : Bytes) (offset : Nat) : Option ChunkHeader :=
  match readLE data offset 4, readLE data (offset + 4) 4,
      readLE data (offset + 8) 8 with
  | some t, some st, some s => some ⟨t, st, s⟩
  | _, _, _ => none

/-- Modelled from the spec: the chunk tags the chunk-set dispatcher
recognizes: Firehose, Oversize, StateDump, SimpleDump and Catalog. -/
def recognizedChunkTags : List Nat := [0x6001, 0x6002, 0x6003, 0x6004, 0x600B]

/-- Modelled from the spec: padding of a chunk data size to the next
8-byte boundary inside a chunk set. -/
def align8 (n : Nat) : Nat := ((n + 7) / 8) * 8

/-- Modelled from the spec: the dispatch loop of
TraceV3File.ReadChunkSet of the missing dtformats unified_logging module,
run over the decompressed chunk-set payload.  Repeatedly reads a chunk
header and collects the tag and payload bytes of every recognized chunk;
a chunk with any other tag is skipped over its declared data size padded
to the next 8-byte boundary, and parsing continues with the subsequent
chunks.  A trailing partial chunk ends the set without error. -/
def ReadChunkSet (data : Bytes) (offset endOffset : Nat) : List (Nat × Bytes) :=
  if h : offset + 16 ≤ endOffset then
    match ReadChunkHeader data offset with
    | none => []
    | some hdr =>
        let body := (data.drop (offset + 16)).take hdr.chunk_data_size
        let next := offset + 16 + align8 hdr.chunk_data_size
        let rest := ReadChunkSet data next endOffset
        if recognizedChunkTags.contains hdr.chunk_tag then
          (hdr.chunk_tag, body) :: rest
        else rest
  else []
termination_by endOffset - offset
decreasing_by
  omega

/-- A two-chunk chunk-set fixture: an unknown chunk with tag 0x9999 and a
4-byte body padded to 8 bytes, followed by a recognized SimpleDump chunk
with an empty body. -/
def chunkSetFixture : Bytes :=
  [0x99, 0x99, 0x00, 0x00, 0x00, 0x00, 0x00, 0x00, 0x04, 0x00, 0x00, 0x00,
   0x00, 0x00, 0x00, 0x00, 0x01, 0x02, 0x03, 0x04, 0x00, 0x00, 0x00, 0x00,
   0x04, 0x60, 0x00, 0x00, 0x00, 0x00, 0x00, 0x00, 0x00, 0x00, 0x00, 0x00,
   0x00, 0x00, 0x00, 0x00]

/-- A timesync Boot record, with the fields asserted by the unit test (the
16-byte boot identifier and the reserved field are not captured). -/
structure BootRecord where
  record_size : Nat
  timebase_numerator : Nat
  timebase_denominator : Nat
  timestamp : Nat
  time_zone_offset : Nat
  daylight_saving_flag : Nat
  deriving DecidableEq

/-- A timesync Sync record, with the fields asserted by the unit test. -/
structure SyncRecord where
  record_size : Nat
  kernel_time : Nat
  timestamp : Nat
  time_zone_offset : Nat
  daylight_saving_flag : Nat
  deriving DecidableEq

/-- Modelled from the spec: the tagged timesync record variant. -/
inductive TimesyncRecord where
  | boot : BootRecord → TimesyncRecord
  | sync : SyncRecord → TimesyncRecord
  deriving DecidableEq

/-- Modelled from the spec: TimesyncDatabaseFile.ReadRecord of the missing
dtformats unified_logging module.  A record starts with a 2-byte
signature distinguishing Boot (byte pair b0 bb, little endian 0xbbb0)
from Sync (the characters T and s, little endian 0x7354), followed by the
16-bit record size; the Boot layout is a 32-bit reserved field, the
16-byte boot identifier, the 32-bit timebase numerator and denominator,
the 64-bit wall-clock timestamp, the 32-bit time-zone offset and the
32-bit daylight saving flag (48 bytes in total); the Sync layout is a
32-bit reserved field, the 64-bit kernel time, the 64-bit wall-clock
timestamp, the 32-bit time-zone offset and the 32-bit daylight saving
flag (32 bytes in total).  Returns the record and the offset of the next
record. -/
def TimesyncReadRecord (data : Bytes) (offset : Nat) :
    Except ParseError (TimesyncRecord × Nat) :=
  match readLE data offset 2 with
  | none => Except.error ParseError.truncatedData
  | some sig =>
      if sig = 0xbbb0 then
        match readLE data (offset + 2) 2, readLE data (offset + 24) 4,
            readLE data (offset + 28) 4, readLE data (offset + 32) 8,
            readLE data (offset + 40) 4, readLE data (offset + 44) 4 with
        | some size, some num, some den, some ts, some tz, some dst =>
            Except.ok (TimesyncRecord.boot ⟨size, num, den, ts, tz, dst⟩,
              offset + size)
        | _, _, _, _, _, _ => Except.error ParseError.truncatedData
      else if sig = 0x7354 then
        match readLE data (offset + 2) 2, readLE data (offset + 8) 8,
            readLE data (offset + 16) 8, readLE data (offset + 24) 4,
            readLE data (offset + 28) 4 with
        | some size, some kt, some ts, some tz, some dst =>
            Except.ok (TimesyncRecord.sync ⟨size, kt, ts, tz, dst⟩,
              offset + size)
        | _, _, _, _, _ => Except.error ParseError.truncatedData
      else Except.error ParseError.malformedHeader

/-- Modelled from the spec: the continuous-time tick a timesync record
anchors; a Boot record anchors the start of the continuous-time scale and
a Sync record its kernel time. -/
def anchorTick : TimesyncRecord → Nat
  | TimesyncRecord.boot _ => 0
  | TimesyncRecord.sync s => s.kernel_time

/-- Modelled from the spec: the wall-clock timestamp a timesync record
anchors. -/
def anchorWall : TimesyncRecord → Nat
  | TimesyncRecord.boot b => b.timestamp
  | TimesyncRecord.sync s => s.timestamp

/-- Modelled from the spec: the record with the greatest anchored
continuous-time tick not exceeding the query value. -/
def bestAnchor (ct : Nat) : List TimesyncRecord → Option TimesyncRecord
  | [] => none
  | r :: rest =>
      let best := bestAnchor ct rest
      if anchorTick r ≤ ct then
        match best with
        | none => some r
        | some b => if anchorTick b ≤ anchorTick r then some r else some b
      else best

/-- Modelled from the spec: the timesync correlation operation Resolve.
Finds the record with the greatest continuous-time value not exceeding
the query, takes its wall-clock timestamp, and adds the tick delta scaled
by the timebase ratio. -/
def Resolve (numerator denominator ct : Nat) (records : List TimesyncRecord) :
    Option Nat :=
  match bestAnchor ct records with
  | none => none
  | some r =>
      some (anchorWall r + (ct - anchorTick r) * numerator / denominator)

/-- A timesync fixture byte stream: a Boot record carrying the values the
unit test asserts for the first record of the timesync fixture file,
followed by a Sync record carrying the values asserted for the second
(the fixture file itself is not part of the source snapshot; its recorded
values are taken from the test assertions). -/
def timesyncFixture : Bytes :=
  [0xb0, 0xbb, 0x30, 0x00, 0x00, 0x00, 0x00, 0x00, 0x00, 0x00, 0x00, 0x00,
   0x00, 0x00, 0x00, 0x00, 0x00, 0x00, 0x00, 0x00, 0x00, 0x00, 0x00, 0x00,
   0x7d, 0x00, 0x00, 0x00, 0x03, 0x00, 0x00, 0x00, 0x30, 0x06, 0xae, 0x2c,
   0x8f, 0x53, 0x65, 0x15, 0xe0, 0x01, 0x00, 0x00, 0x00, 0x00, 0x00, 0x00,
   0x54, 0x73, 0x20, 0x00, 0x00, 0x00, 0x00, 0x00, 0xc5, 0x44, 0x72, 0x1d,
   0x00, 0x00, 0x00, 0x00, 0x20, 0xf7, 0x06, 0xc7, 0x92, 0x53, 0x65, 0x15,
   0xe0, 0x01, 0x00, 0x00, 0x00, 0x00, 0x00, 0x00]

/-- The DSC file signature, the characters h c s d. -/
def dscSignature : Bytes := [0x68, 0x63, 0x73, 0x64]

/-- A DSC file header, with the fields asserted by the unit test. -/
structure DSCFileHeader where
  signature : Bytes
  major_format_version : Nat
  minor_format_version : Nat
  number_of_ranges : Nat
  number_of_uuids : Nat
  deriving DecidableEq

/-- Modelled from the spec: DSCFile.ReadFileHeader of the missing
dtformats unified_logging module.  The 4-byte signature must be h c s d;
the major and minor format versions are 16-bit and the range and UUID
descriptor counts 32-bit, all little endian. -/
def DSCReadFileHeader (data : Bytes) : Except ParseError DSCFileHeader :=
  match readLE data 4 2, readLE data 6 2, readLE data 8 4, readLE data 12 4 with
  | some maj, some minv, some nr, some nu =>
      if data.take 4 = dscSignature then
        Except.ok ⟨data.take 4, maj, minv, nr, nu⟩
      else Except.error ParseError.malformedHeader
  | _, _, _, _ => Except.error ParseError.truncatedData

/-- A DSC range descriptor, mapping a format-string-location sub-range to
a byte offset inside the file. -/
structure RangeDescriptor where
  uuid_index : Nat
  data_offset : Nat
  range_offset : Nat
  range_size : Nat
  deriving DecidableEq

/-- Modelled from the spec: one version-2 range descriptor (24 bytes: the
spec gives the field set and that the descriptor size depends on the
major version; the version-2 descriptor stride of 24 bytes follows from
the offsets exercised by the unit test, and word widths are modelled). -/
def ReadRangeDescriptor (data : Bytes) (offset : Nat) : Option RangeDescriptor :=
  match readLE data offset 8, readLE data (offset + 8) 8,
      readLE data (offset + 16) 4, readLE data (offset + 20) 4 with
  | some ui, some doff, some ro, some rs => some ⟨ui, doff, ro, rs⟩
  | _, _, _, _ => none

/-- Modelled from the spec: reads the declared number of version-2 range
descriptors from the given offset. -/
def ReadRangeDescriptors (data : Bytes) (offset : Nat) :
    Nat → Except ParseError (List RangeDescriptor)
  | 0 => Except.ok []
  | n + 1 =>
      match ReadRangeDescriptor data offset with
      | none => Except.error ParseError.truncatedData
      | some r =>
          match ReadRangeDescriptors data (offset + 24) n with
          | Except.ok rs => Except.ok (r :: rs)
          | Except.error e => Except.error e

/-- A DSC UUID descriptor for one owning binary. -/
structure UUIDDescriptor where
  text_offset : Nat
  text_size : Nat
  uuid : Bytes
  path_offset : Nat
  deriving DecidableEq

/-- Modelled from the spec: one version-2 UUID descriptor (32 bytes: the
64-bit text offset, the 32-bit text size, the 16-byte UUID and the 32-bit
offset of the path string). -/
def ReadUUIDDescriptor (data : Bytes) (offset : Nat) : Option UUIDDescriptor :=
  match readLE data offset 8, readLE data (offset + 8) 4,
      readLE data (offset + 28) 4 with
  | some toff, some tsize, some poff =>
      some ⟨toff, tsize, (data.drop (offset + 12)).take 16, poff⟩
  | _, _, _ => none

/-- Modelled from the spec: reads the declared number of version-2 UUID
descriptors from the given offset. -/
def ReadUUIDDescriptors (data : Bytes) (offset : Nat) :
    Nat → Except ParseError (List UUIDDescriptor)
  | 0 => Except.ok []
  | n + 1 =>
      match ReadUUIDDescriptor data offset with
      | none => Except.error ParseError.truncatedData
      | some u =>
          match ReadUUIDDescriptors data (offset + 32) n with
          | Except.ok us => Except.ok (u :: us)
          | Except.error e => Except.error e

/-- A fully parsed DSC file. -/
structure DSCFile where
  header : DSCFileHeader
  ranges : List RangeDescriptor
  uuids : List UUIDDescriptor
  deriving DecidableEq

/-- Modelled from the spec: the version-2 whole-file DSC parse of the
missing dtformats unified_logging module: header, then the declared
number of range descriptors, then the declared number of UUID
descriptors; per the spec invariant every range descriptor reference
must resolve to a valid UUID descriptor index, so a dangling uuid_index
fails the parse with an unresolved-reference error. -/
def ReadDSCFile (data : Bytes) : Except ParseError DSCFile :=
  match DSCReadFileHeader data with
  | Except.error e => Except.error e
  | Except.ok header =>
      if header.major_format_version = 2 then
        match ReadRangeDescriptors data 16 header.number_of_ranges with
        | Except.error e => Except.error e
        | Except.ok ranges =>
            match ReadUUIDDescriptors data
                (16 + 24 * header.number_of_ranges) header.number_of_uuids with
            | Except.error e => Except.error e
            | Except.ok uuids =>
                if ranges.all (fun r => r.uuid_index < uuids.length) then
                  Except.ok ⟨header, ranges, uuids⟩
                else Except.error ParseError.unresolvedReference
      else Except.error ParseError.malformedHeader

/-- A 16-byte DSC header fixture carrying the values the unit test asserts
for the version-2 fixture file: signature h c s d, major version 2, minor
version 0, 263 ranges and 200 UUIDs. -/
def dscHeaderFixture : Bytes :=
  [0x68, 0x63, 0x73, 0x64, 0x02, 0x00, 0x00, 0x00, 0x07, 0x01, 0x00, 0x00,
   0xc8, 0x00, 0x00, 0x00]

/-- A complete tiny version-2 DSC file with one range descriptor referring
to the single UUID descriptor. -/
def dscTinyFixture : Bytes :=
  [0x68, 0x63, 0x73, 0x64, 0x02, 0x00, 0x00, 0x00, 0x01, 0x00, 0x00, 0x00,
   0x01, 0x00, 0x00, 0x00, 0x00, 0x00, 0x00, 0x00, 0x00, 0x00, 0x00, 0x00,
   0x40, 0x00, 0x00, 0x00, 0x00, 0x00, 0x00, 0x00, 0x00, 0x01, 0x00, 0x00,
   0x10, 0x00, 0x00, 0x00, 0x00, 0x10, 0x00, 0x00, 0x00, 0x00, 0x00, 0x00,
   0x20, 0x00, 0x00, 0x00, 0x00, 0x00, 0x00, 0x00, 0x00, 0x00, 0x00, 0x00,
   0x00, 0x00, 0x00, 0x00, 0x00, 0x00, 0x00, 0x00, 0x00, 0x02, 0x00, 0x00]

/-- The parse result of the tiny version-2 DSC file. -/
def dscTinyFile : DSCFile :=
  ⟨⟨dscSignature, 2, 0, 1, 1⟩,
   [⟨0, 0x40, 0x100, 0x10⟩],
   [⟨0x1000, 0x20, List.replicate 16 0, 0x200⟩]⟩

/-- C1: the format-string location resolver returns the raw field when both
supplemental values are zero, combines a non-zero large_offset_data as
upper bits with bit 31 forced when large_shared_cache_data is zero, ors in
large_shared_cache_data shifted by 31 when it is non-zero (ignoring
large_offset_data), and maps the four concrete test inputs to 0x964b95,
0x7fa5a8dd2b31, 0x115a557c5 and 0x8ec8fbbd0. -/
theorem calculate_format_string_location_spec :
    (∀ flags raw, CalculateFormatFormatStringLocation flags raw 0 0 = raw)
    ∧ (∀ flags raw lod, lod ≠ 0 →
        CalculateFormatFormatStringLocation flags raw lod 0 =
          (((lod >>> 1) <<< 32) ||| (raw ||| 0x80000000)))
    ∧ (∀ flags raw lod lscd, lscd ≠ 0 →
        CalculateFormatFormatStringLocation flags raw lod lscd =
          (raw ||| (lscd <<< 31)))
    ∧ CalculateFormatFormatStringLocation 0x0002 0x00964b95 0 0 = 0x964b95
    ∧ CalculateFormatFormatStringLocation 0x0002 0x28dd2b31 0xff4b 0 = 0x7fa5a8dd2b31
    ∧ CalculateFormatFormatStringLocation 0x000c 0x15a557c5 0x0001 0x0002 = 0x115a557c5
    ∧ CalculateFormatFormatStringLocation 0x000c 0x6c8fbbd0 0x0001 0x0011 = 0x8ec8fbbd0 := by
  refine ⟨?_, ?_, ?_, by decide, by decide, by decide, by decide⟩
  · intro flags raw
    simp [CalculateFormatFormatStringLocation]
  · intro flags raw lod hlod
    simp [CalculateFormatFormatStringLocation, hlod]
  · intro flags raw lod lscd hlscd
    simp [CalculateFormatFormatStringLocation, hlscd]

/-- C1 witness: the hypothesised branch equations instantiated at the
concrete test inputs. -/
theorem calculate_format_string_location_spec_witness :
    ((0xff4b : Nat) ≠ 0
      ∧ CalculateFormatFormatStringLocation 0x0002 0x28dd2b31 0xff4b 0 =
          (((0xff4b >>> 1) <<< 32) ||| (0x28dd2b31 ||| 0x80000000)))
    ∧ ((0x0002 : Nat) ≠ 0
      ∧ CalculateFormatFormatStringLocation 0x000c 0x15a557c5 0x0001 0x0002 =
          (0x15a557c5 ||| (0x0002 <<< 31))) :=
  ⟨⟨by decide,
    calculate_format_string_location_spec.2.1 0x0002 0x28dd2b31 0xff4b (by decide)⟩,
   ⟨by decide,
    calculate_format_string_location_spec.2.2.1 0x000c 0x15a557c5 0x0001 0x0002 (by decide)⟩⟩

/-- C6: the file-mode decoder always produces a 10-character string of the
shape type-character then three rwx triplets, and renders mode 0o700 as
the string -rwx------ (shown here together with a directory mode as a
cross check of the triplet structure). -/
theorem file_mode_format_value_spec :
    (∀ mode, (FileModeFormatValue mode).length = 10)
    ∧ (∀ mode, FileModeFormatValue mode =
        String.mk [fileTypeCharacter mode,
          permissionCharacter mode 0o400 'r',
          permissionCharacter mode 0o200 'w',
          permissionCharacter mode 0o100 'x',
          permissionCharacter mode 0o40 'r',
          permissionCharacter mode 0o20 'w',
          permissionCharacter mode 0o10 'x',
          permissionCharacter mode 0o4 'r',
          permissionCharacter mode 0o2 'w',
          permissionCharacter mode 0o1 'x'])
    ∧ FileModeFormatValue 0o700 = "-rwx------"
    ∧ FileModeFormatValue 0o40755 = "drwxr-xr-x" := by
  refine ⟨fun mode => rfl, fun mode => rfl, by decide, by decide⟩

/-- C7: the error decoder maps a signed errno-like value v to the string
consisting of an opening bracket, the decimal rendering of v, a colon and
space, the operating-system error description of v, and a closing
bracket; in particular it maps 2 to the no-such-file-or-directory
message. -/
theorem error_format_value_spec :
    (∀ v : Int, ErrorFormatValue v =
        "[" ++ Int.repr v ++ ": " ++ osErrorDescription v ++ "]")
    ∧ ErrorFormatValue 2 = "[2: No such file or directory]" := by
  exact ⟨fun v => rfl, by decide⟩

/-- C2: the format-string rewriter maps each of the ten listed inputs to
exactly the listed template and decoder list: an absent string to the
empty template, plain text unchanged, a doubled percent to a literal
percent, percent-d to a signed decimal placeholder, percent-s to a string
placeholder with no numeric decoder, percent-p and percent-u to unsigned
decimal placeholders, a length modifier l consumed and never copied, a
zero-two width preserved in the hexadecimal placeholder, and a public
privacy block captured as the decoder privacy tag. -/
theorem rewrite_format_string_spec :
    RewriteFormatString none = ("", [])
    ∧ RewriteFormatString (some "text") = ("text", [])
    ∧ RewriteFormatString (some "%%") = ("%", [])
    ∧ RewriteFormatString (some "%d") = ("\x7b:d\x7d", [(none, some "signed")])
    ∧ RewriteFormatString (some "%s") = ("\x7b:s\x7d", [(none, none)])
    ∧ RewriteFormatString (some "%p") = ("\x7b:d\x7d", [(none, some "unsigned")])
    ∧ RewriteFormatString (some "%u") = ("\x7b:d\x7d", [(none, some "unsigned")])
    ∧ RewriteFormatString (some "0x%lx") = ("0x\x7b:x\x7d", [(none, some "unsigned")])
    ∧ RewriteFormatString (some "0x%02x") =
        ("0x\x7b:02x\x7d", [(none, some "unsigned")])
    ∧ RewriteFormatString (some "%\x7bpublic\x7ds") =
        ("\x7b:s\x7d", [(some "public", none)]) := by
  exact ⟨rfl, rfl, rfl, rfl, rfl, rfl, rfl, rfl, rfl, rfl⟩

/-- Helper: on a well-formed cache every successful lookup returns the
cold rewrite of the key. -/
theorem lookupCache_wf (cache : List (String × (String × List FormatDecoder)))
    (hwf : CacheWF cache) (key : String) (v : String × List FormatDecoder)
    (h : lookupCache cache key = some v) : v = RewriteFormatString (some key) := by
  induction cache with
  | nil => simp [lookupCache] at h
  | cons kv rest ih =>
      obtain ⟨k, w⟩ := kv
      by_cases hk : k = key
      · subst hk
        simp [lookupCache] at h
        have hw := hwf (k, w) (List.mem_cons_self _ _)
        rw [← h]
        exact hw
      · simp [lookupCache, hk] at h
        exact ih (fun kv hkv => hwf kv (List.mem_cons_of_mem _ hkv)) h

/-- Helper: under a well-formed cache the first component of a cached
rewrite is the cold rewrite. -/
theorem rewriteCached_fst (cache : List (String × (String × List FormatDecoder)))
    (hwf : CacheWF cache) (raw : String) :
    (RewriteFormatStringCached cache raw).1 = RewriteFormatString (some raw) := by
  unfold RewriteFormatStringCached
  cases hl : lookupCache cache raw with
  | some v => exact lookupCache_wf cache hwf raw v hl
  | none => rfl

/-- Helper: the cache after a cached rewrite is the old cache, possibly
with the cold-rewrite entry for the key prepended. -/
theorem rewriteCached_snd (cache : List (String × (String × List FormatDecoder)))
    (raw : String) :
    (RewriteFormatStringCached cache raw).2 = cache
    ∨ (RewriteFormatStringCached cache raw).2 =
        (raw, RewriteFormatString (some raw)) :: cache := by
  unfold RewriteFormatStringCached
  cases hl : lookupCache cache raw with
  | some v => exact Or.inl rfl
  | none => exact Or.inr rfl

/-- Helper: a cached rewrite preserves well-formedness of the cache. -/
theorem rewriteCached_wf (cache : List (String × (String × List FormatDecoder)))
    (hwf : CacheWF cache) (raw : String) :
    CacheWF (RewriteFormatStringCached cache raw).2 := by
  rcases rewriteCached_snd cache raw with h | h
  · rw [h]; exact hwf
  · rw [h]
    intro kv hkv
    rcases List.mem_cons.mp hkv with h2 | h2
    · subst h2; rfl
    · exact hwf kv h2

/-- Helper: a cached rewrite never removes or mutates a published entry. -/
theorem rewriteCached_preserves
    (cache : List (String × (String × List FormatDecoder))) (raw : String) :
    ∀ kv ∈ cache, kv ∈ (RewriteFormatStringCached cache raw).2 := by
  intro kv hkv
  rcases rewriteCached_snd cache raw with h | h
  · rw [h]; exact hkv
  · rw [h]; exact List.mem_cons_of_mem _ hkv

/-- C9: for a well-formed cache, the cached rewrite of a raw format string
equals the cold rewrite, the resulting cache is still well-formed, every
previously published entry is preserved unchanged (insert-once-if-absent),
and rewriting the same raw string a second time through the resulting
cache returns a pair identical to the first result. -/
theorem rewrite_format_string_cache_spec
    (cache : List (String × (String × List FormatDecoder))) (raw : String)
    (hwf : CacheWF cache) :
    (RewriteFormatStringCached cache raw).1 = RewriteFormatString (some raw)
    ∧ CacheWF (RewriteFormatStringCached cache raw).2
    ∧ (∀ kv ∈ cache, kv ∈ (RewriteFormatStringCached cache raw).2)
    ∧ (RewriteFormatStringCached (RewriteFormatStringCached cache raw).2 raw).1 =
        (RewriteFormatStringCached cache raw).1 := by
  refine ⟨rewriteCached_fst cache hwf raw, rewriteCached_wf cache hwf raw,
    rewriteCached_preserves cache raw, ?_⟩
  rw [rewriteCached_fst _ (rewriteCached_wf cache hwf raw) raw,
    rewriteCached_fst cache hwf raw]

/-- C9 witness: the cache theorem instantiated at the empty cache, which is
well-formed, and the percent-d format string. -/
theorem rewrite_format_string_cache_spec_witness :
    (RewriteFormatStringCached [] "%d").1 = RewriteFormatString (some "%d")
    ∧ CacheWF (RewriteFormatStringCached [] "%d").2
    ∧ (∀ kv ∈ ([] : List (String × (String × List FormatDecoder))),
        kv ∈ (RewriteFormatStringCached [] "%d").2)
    ∧ (RewriteFormatStringCached (RewriteFormatStringCached [] "%d").2 "%d").1 =
        (RewriteFormatStringCached [] "%d").1 :=
  rewrite_format_string_cache_spec [] "%d" (fun kv hkv => absurd hkv (List.not_mem_nil kv))

/-- C3: decoding an Activity-type firehose tracepoint under any flags value
outside the recognized combinations fails with the
unsupported-flags-combination error, for every payload and offset; under
the recognized combination 0x0213 the test fixture payload decodes to the
activity identifiers, process identifier and lower load address asserted
by the unit test, so an unrecognized value never silently misparses. -/
theorem read_firehose_tracepoint_activity_spec :
    (∀ activity_type flags data offset,
        recognizedActivityFlags.contains flags = false →
        ReadFirehoseTracepointActivityData activity_type flags data offset =
          Except.error ParseError.unsupportedFlagsCombination)
    ∧ ReadFirehoseTracepointActivityData 0x01 0x0213
        firehoseTracepointActivityData 0 =
        Except.ok
          (⟨0x80000000000000e0, 59, 0x80000000000000e0, 0x80000000000000e1,
            0x00047e48⟩, 36) := by
  constructor
  · intro activity_type flags data offset h
    have hmem : flags ∉ recognizedActivityFlags := by simpa using h
    simp [ReadFirehoseTracepointActivityData, hmem]
  · rfl

/-- C3 witness: the unrecognized flags value 0xffff on the test fixture
payload fails with the unsupported-flags-combination error. -/
theorem read_firehose_tracepoint_activity_spec_witness :
    recognizedActivityFlags.contains 0xffff = false
    ∧ ReadFirehoseTracepointActivityData 0x01 0xffff
        firehoseTracepointActivityData 0 =
        Except.error ParseError.unsupportedFlagsCombination :=
  ⟨by decide,
   read_firehose_tracepoint_activity_spec.1 0x01 0xffff
     firehoseTracepointActivityData 0 (by decide)⟩

/-- C10: decoding a Loss-type firehose tracepoint also validates the flags
field: any flags value outside the recognized combinations fails with a
parse error, for every payload and offset, before start_time, end_time
and number_of_messages are decoded; under the recognized flags value
0x0000 the test fixture payload decodes to the three values asserted by
the unit test. -/
theorem read_firehose_tracepoint_loss_spec :
    (∀ flags data offset,
        recognizedLossFlags.contains flags = false →
        ReadFirehoseTracepointLossData flags data offset =
          Except.error ParseError.unsupportedFlagsCombination)
    ∧ ReadFirehoseTracepointLossData 0x0000 firehoseTracepointLossData 0 =
        Except.ok (⟨120691406, 1458547349, 63⟩, 24) := by
  constructor
  · intro flags data offset h
    have hmem : flags ∉ recognizedLossFlags := by simpa using h
    simp [ReadFirehoseTracepointLossData, hmem]
  · rfl

/-- C10 witness: the unrecognized flags value 0xffff on the Loss test
fixture payload fails with a parse error. -/
theorem read_firehose_tracepoint_loss_spec_witness :
    recognizedLossFlags.contains 0xffff = false
    ∧ ReadFirehoseTracepointLossData 0xffff firehoseTracepointLossData 0 =
        Except.error ParseError.unsupportedFlagsCombination :=
  ⟨by decide,
   read_firehose_tracepoint_loss_spec.1 0xffff firehoseTracepointLossData 0
     (by decide)⟩

/-- C8: when the chunk-set dispatcher meets an embedded chunk whose tag is
not recognized, it skips exactly the 16 header bytes plus the declared
data size padded to the next 8-byte boundary and yields the same result
as parsing the remainder of the chunk set from there, for every chunk
set; the unknown chunk never aborts the set. -/
theorem read_chunk_set_skips_unknown_spec :
    ∀ data offset endOffset hdr,
      ReadChunkHeader data offset = some hdr →
      recognizedChunkTags.contains hdr.chunk_tag = false →
      offset + 16 ≤ endOffset →
      ReadChunkSet data offset endOffset =
        ReadChunkSet data (offset + 16 + align8 hdr.chunk_data_size) endOffset := by
  intro data offset endOffset hdr hhdr htag hle
  have hmem : hdr.chunk_tag ∉ recognizedChunkTags := by simpa using htag
  conv_lhs => rw [ReadChunkSet]
  simp [hle, hhdr, hmem]

/-- C8 witness: on the two-chunk fixture the dispatcher skips the unknown
leading chunk and parses the set from the subsequent chunk. -/
theorem read_chunk_set_skips_unknown_spec_witness :
    ReadChunkHeader chunkSetFixture 0 = some ⟨0x9999, 0, 4⟩
    ∧ recognizedChunkTags.contains (ChunkHeader.mk 0x9999 0 4).chunk_tag = false
    ∧ 0 + 16 ≤ 40
    ∧ ReadChunkSet chunkSetFixture 0 40 =
        ReadChunkSet chunkSetFixture (0 + 16 + align8 (ChunkHeader.mk 0x9999 0 4).chunk_data_size) 40 :=
  ⟨by decide, by decide, by decide,
   read_chunk_set_skips_unknown_spec chunkSetFixture 0 40 ⟨0x9999, 0, 4⟩
     (by decide) (by decide) (by decide)⟩

/-- C4: the timesync reader parses the fixture Boot record (signature
0xbbb0, timebase 125 over 3, the recorded wall-clock boot timestamp, the
time-zone offset 480 and a clear daylight-saving flag, 48 bytes) followed
by the fixture Sync record (signature the characters T and s, kernel time
494027973, the recorded wall-clock timestamp, time-zone offset 480, 32
bytes) exactly; and for every continuous-time value between the boot
anchor and the sync anchor, Resolve over the two parsed records equals
the boot record's wall-clock timestamp plus the tick delta from the boot
anchor scaled by the timebase ratio, the boot record being the record
with the greatest anchored tick not exceeding the query. -/
theorem timesync_resolve_spec :
    TimesyncReadRecord timesyncFixture 0 =
      Except.ok
        (TimesyncRecord.boot ⟨48, 125, 3, 1541730321839294000, 480, 0⟩, 48)
    ∧ TimesyncReadRecord timesyncFixture 48 =
      Except.ok
        (TimesyncRecord.sync ⟨32, 494027973, 1541730337313716000, 480, 0⟩, 80)
    ∧ (∀ ct, ct < 494027973 →
        Resolve 125 3 ct
          [TimesyncRecord.boot ⟨48, 125, 3, 1541730321839294000, 480, 0⟩,
           TimesyncRecord.sync ⟨32, 494027973, 1541730337313716000, 480, 0⟩] =
          some (1541730321839294000 + (ct - 0) * 125 / 3)) := by
  refine ⟨rfl, rfl, ?_⟩
  intro ct hct
  have hs : ¬ (494027973 ≤ ct) := by omega
  simp [Resolve, bestAnchor, anchorTick, anchorWall, hs]

/-- C4 witness: the resolve equation instantiated at a continuous-time
value between the boot anchor and the sync anchor. -/
theorem timesync_resolve_spec_witness :
    100000000 < 494027973
    ∧ Resolve 125 3 100000000
        [TimesyncRecord.boot ⟨48, 125, 3, 1541730321839294000, 480, 0⟩,
         TimesyncRecord.sync ⟨32, 494027973, 1541730337313716000, 480, 0⟩] =
        some (1541730321839294000 + (100000000 - 0) * 125 / 3) :=
  ⟨by decide, timesync_resolve_spec.2.2 100000000 (by decide)⟩

/-- C5: parsing the version-2 DSC header fixture yields the signature
h c s d, major format version 2, minor format version 0, 263 ranges and
200 UUIDs; and every successfully parsed DSC file satisfies referential
integrity: each parsed range descriptor's uuid_index is a valid index
into the parsed UUID descriptor sequence. -/
theorem dsc_file_spec :
    DSCReadFileHeader dscHeaderFixture =
      Except.ok ⟨dscSignature, 2, 0, 263, 200⟩
    ∧ (∀ data f, ReadDSCFile data = Except.ok f →
        ∀ r ∈ f.ranges, r.uuid_index < f.uuids.length) := by
  constructor
  · rfl
  · intro data f h r hr
    unfold ReadDSCFile at h
    split at h
    · exact absurd h (by simp)
    · split at h
      · split at h
        · exact absurd h (by simp)
        · split at h
          · exact absurd h (by simp)
          · split at h
            · rename_i header ranges uuids hall
              injection h with h2
              subst h2
              have := List.all_eq_true.mp hall r hr
              exact of_decide_eq_true this
            · exact absurd h (by simp)
      · exact absurd h (by simp)

/-- C5 witness: the tiny version-2 DSC file parses successfully and every
one of its range descriptors resolves to a valid UUID descriptor index. -/
theorem dsc_file_spec_witness :
    ReadDSCFile dscTinyFixture = Except.ok dscTinyFile
    ∧ (∀ r ∈ dscTinyFile.ranges, r.uuid_index < dscTinyFile.uuids.length) :=
  ⟨rfl, dsc_file_spec.2 dscTinyFixture dscTinyFile rfl⟩
